/-
  Verification of the OAuth token lifecycle subsystem of the
  multi-agent-platform backend, against its natural-language specification.

  The Lean definitions below are a shallow embedding of the Python source:
    - backend/app/core/encryption.py        (TokenEncryption)
    - backend/app/models/user_integration.py (UserIntegration, UserIntegrationPublic)
    - backend/app/models/oauth_state.py      (OAuthState)
    - backend/app/crud/integration.py        (CRUD for UserIntegration)
    - backend/app/crud/oauth_state.py        (CRUD for OAuthState)
    - backend/app/services/oauth_token.py    (token endpoint client)
    - backend/app/services/token_refresh.py  (refresh coordinator)

  Modelling conventions:
    - Timestamps are `Int` seconds since an arbitrary epoch; `datetime.now`
      becomes an explicit `now : Int` parameter (one instant per call,
      standard for a sequential shallow embedding).
    - Fernet encryption is modelled abstractly: `EncBytes.enc s` is the
      ciphertext of `s` under the live key; `EncBytes.undecryptable n` is any
      blob that does not decrypt under the live key (tampered or encrypted
      under a rotated key).  `decrypt` returning `none` models
      `cryptography.fernet.InvalidToken` being raised.
    - The database session becomes explicit state passing on
      `List UserIntegration` / `List OAuthState`; `session.delete` /
      `session.add` + `commit` become pure list updates keyed the way the
      source keys its queries.
    - Fallible code returns `Option`: `none` models an exception escaping the
      modelled function.
    - Outcome records carry an extra `provider_called` (and
      `refresh_attempted`) instrumentation flag recording whether the outbound
      HTTP call to the OAuth provider was reached; the flag is not part of the
      source's return value but only observes control flow.
-/
import Mathlib

set_option linter.unusedVariables false

/-! ## Token cipher (backend/app/core/encryption.py) -/

/-- Abstract model of a Fernet ciphertext blob.  `enc s` is the encryption of
`s` under the process key; `undecryptable n` is a blob that raises
`InvalidToken` on decryption (key rotation or tampering). -/
inductive EncBytes where
  | enc (plaintext : String) : EncBytes
  | undecryptable (tag : Nat) : EncBytes
deriving DecidableEq, Repr

/-- `TokenEncryption.encrypt`: encrypt a token string under the process key. -/
def encrypt (plaintext : String) : EncBytes := EncBytes.enc plaintext

/-- `TokenEncryption.decrypt`: `some` plaintext on success, `none` models the
`InvalidToken` exception on tampered/foreign ciphertext. -/
def decrypt : EncBytes → Option String
  | EncBytes.enc s => some s
  | EncBytes.undecryptable _ => none

/-! ## Data model (backend/app/models/user_integration.py)

The `refresh_locked_at` / `last_refresh_attempt` columns appear in the spec's
data model (§3) and are read and written throughout
`backend/app/services/token_refresh.py`; the SQLModel class in
`user_integration.py` does not declare them, so their declaration is taken
from the spec's data model (nullable timestamps, default absent). -/

structure UserIntegration where
  id : Option Nat
  user_id : Nat
  service_name : String
  access_token_encrypted : EncBytes
  refresh_token_encrypted : Option EncBytes
  expires_at : Option Int
  scopes : Option String
  token_type : String
  provider_client_id : Option String
  created_at : Int
  updated_at : Int
  refresh_locked_at : Option Int
  last_refresh_attempt : Option Int
deriving DecidableEq, Repr

/-- `UserIntegration.is_expired`: false when no expiry is set, else
`now > expires_at` (timezone normalisation is the identity in the model). -/
def UserIntegration.is_expired (i : UserIntegration) (now : Int) : Bool :=
  match i.expires_at with
  | none => false
  | some expires => decide (now > expires)

/-- `UserIntegration.is_expiring_soon`: false when no expiry is set, else
`expires_at < now + minutes*60`. -/
def UserIntegration.is_expiring_soon (i : UserIntegration) (minutes : Int) (now : Int) : Bool :=
  match i.expires_at with
  | none => false
  | some expires => decide (expires < now + minutes * 60)

/-- Output schema `UserIntegrationPublic` — carries no token material. -/
structure UserIntegrationPublic where
  id : Nat
  service_name : String
  expires_at : Option Int
  scopes : Option String
  is_connected : Bool
  is_expired : Bool
  created_at : Int
  updated_at : Int
deriving DecidableEq, Repr

/-! ## Integration store (backend/app/crud/integration.py) -/

/-- The WHERE clause used by `get_user_integration`. -/
def key_matches (user_id : Nat) (service_name : String) (i : UserIntegration) : Bool :=
  i.user_id == user_id && i.service_name == service_name

/-- `get_user_integration`: first row matching (user_id, service_name). -/
def get_user_integration (db : List UserIntegration) (user_id : Nat)
    (service_name : String) : Option UserIntegration :=
  db.find? (key_matches user_id service_name)

/-- `get_user_integrations`: all rows of one user. -/
def get_user_integrations (db : List UserIntegration) (user_id : Nat) :
    List UserIntegration :=
  db.filter (fun i => i.user_id == user_id)

/-- `session.add` + `commit` on a row selected by (user_id, service_name):
rewrite the matching row(s) with `f`. -/
def updateIntegration (db : List UserIntegration) (user_id : Nat)
    (service_name : String) (f : UserIntegration → UserIntegration) :
    List UserIntegration :=
  db.map (fun i => if key_matches user_id service_name i then f i else i)

/-- The field assignments the update branch of `create_or_update_integration`
performs on an existing row: always overwrites the access token, `expires_at`,
`scopes`, `token_type` and `updated_at`; overwrites the refresh token and
`provider_client_id` only when the argument is not `None`. -/
def applyUpsert (now : Int) (access_token : String) (refresh_token : Option String)
    (expires_at : Option Int) (scopes : Option String) (token_type : String)
    (provider_client_id : Option String) (existing : UserIntegration) :
    UserIntegration :=
  { existing with
    access_token_encrypted := encrypt access_token
    refresh_token_encrypted :=
      match refresh_token with
      | some rt => some (encrypt rt)
      | none => existing.refresh_token_encrypted
    expires_at := expires_at
    scopes := scopes
    token_type := token_type
    provider_client_id :=
      match provider_client_id with
      | some pc => some pc
      | none => existing.provider_client_id
    updated_at := now }

/-- `create_or_update_integration`.  Updates in place when a row exists, else
inserts a fresh row (the insert branch checks the refresh token for Python
truthiness, so `some ""` stores `none`). -/
def create_or_update_integration (db : List UserIntegration) (now : Int)
    (user_id : Nat) (service_name : String)
    (access_token : String) (refresh_token : Option String)
    (expires_in : Option Int) (scopes : Option String)
    (token_type : String) (provider_client_id : Option String) :
    List UserIntegration :=
  let expires_at := expires_in.map (fun e => now + e)
  match get_user_integration db user_id service_name with
  | some _ =>
      updateIntegration db user_id service_name
        (applyUpsert now access_token refresh_token expires_at scopes
          token_type provider_client_id)
  | none =>
      db ++ [{ id := none
               user_id := user_id
               service_name := service_name
               access_token_encrypted := encrypt access_token
               refresh_token_encrypted :=
                 match refresh_token with
                 | some rt => if rt == "" then none else some (encrypt rt)
                 | none => none
               expires_at := expires_at
               scopes := scopes
               token_type := token_type
               provider_client_id := provider_client_id
               created_at := now
               updated_at := now
               refresh_locked_at := none
               last_refresh_attempt := none }]

/-- The dict returned by `get_decrypted_tokens` (expires_at kept as the raw
timestamp rather than its isoformat rendering). -/
structure DecryptedTokens where
  access_token : String
  refresh_token : Option String
  token_type : String
  expires_at : Option Int
  scopes : Option String
deriving DecidableEq, Repr

/-- `get_decrypted_tokens`; `none` models `InvalidToken` escaping. -/
def get_decrypted_tokens (i : UserIntegration) : Option DecryptedTokens :=
  match decrypt i.access_token_encrypted with
  | none => none
  | some access_token =>
    match i.refresh_token_encrypted with
    | none =>
        some { access_token := access_token, refresh_token := none,
               token_type := i.token_type, expires_at := i.expires_at,
               scopes := i.scopes }
    | some c =>
        match decrypt c with
        | none => none
        | some refresh_token =>
            some { access_token := access_token, refresh_token := some refresh_token,
                   token_type := i.token_type, expires_at := i.expires_at,
                   scopes := i.scopes }

/-! ## Token endpoint client (backend/app/services/oauth_token.py) -/

/-- A parsed token-endpoint JSON body.  Every field is optional: `none` means
the key is absent from the JSON object. -/
structure TokenJson where
  access_token : Option String
  refresh_token : Option String
  expires_in : Option Int
  token_type : Option String
  scope : Option String
  error : Option String
  error_description : Option String
deriving DecidableEq, Repr

/-- The raw body of a token-endpoint HTTP response: either JSON-parseable or
not (`response.json()` raises `json.JSONDecodeError` on `nonJson`). -/
inductive RespBody where
  | json (j : TokenJson)
  | nonJson (raw : String)
deriving DecidableEq, Repr

/-- Outcome of `_post_token_request`: normal return, an `OAuthTokenError`
raise, or an unhandled `json.JSONDecodeError` escaping the function. -/
inductive PostTokenOutcome where
  | ok (j : TokenJson)
  | oauthTokenError (error : String) (description : Option String)
  | jsonDecodeError (raw : String)
deriving DecidableEq, Repr

/-- `_post_token_request`, given the provider's HTTP response.  The source
calls `response.json()` before inspecting `status_code`, with no exception
handling around it. -/
def post_token_request (status_code : Nat) (body : RespBody) : PostTokenOutcome :=
  match body with
  | RespBody.nonJson raw => PostTokenOutcome.jsonDecodeError raw
  | RespBody.json result =>
    if status_code != 200 then
      PostTokenOutcome.oauthTokenError (result.error.getD "unknown_error")
        result.error_description
    else
      PostTokenOutcome.ok result

/-- The dict built by `refresh_access_token` from a 200 response. -/
structure NewTokens where
  access_token : String
  refresh_token : Option String
  expires_in : Option Int
  token_type : String
  scope : Option String
deriving DecidableEq, Repr

/-- The result-shaping tail of `refresh_access_token` (oauth_token.py lines
152-162) applied to a 200 JSON body: `result["access_token"]` raises
`KeyError` when the key is absent (modelled as `none`);
`result.get("refresh_token", refresh_token)` preserves the prior refresh token
when the provider omits one. -/
def refresh_access_token_result (refresh_token : String) (result : TokenJson) :
    Option NewTokens :=
  match result.access_token with
  | none => none
  | some access_token =>
      some { access_token := access_token
             refresh_token := some (result.refresh_token.getD refresh_token)
             expires_in := result.expires_in
             token_type := result.token_type.getD "Bearer"
             scope := result.scope }

/-! ## Refresh coordinator (backend/app/services/token_refresh.py) -/

def DEFAULT_REFRESH_THRESHOLD_MINUTES : Int := 5

def SERVICE_REFRESH_THRESHOLDS : List (String × Int) :=
  [("google_drive", 5), ("dataverse", 60)]

def REFRESH_LOCK_TIMEOUT_SECONDS : Int := 30

def RATE_LIMIT_SECONDS : Int := 60

/-- `get_refresh_threshold_minutes`: service-specific threshold, default 5. -/
def get_refresh_threshold_minutes (service_name : String) : Int :=
  ((SERVICE_REFRESH_THRESHOLDS.find? (fun p => p.1 == service_name)).map
    Prod.snd).getD DEFAULT_REFRESH_THRESHOLD_MINUTES

/-- `_is_refresh_locked`: lock present and younger than the 30s timeout. -/
def is_refresh_locked (i : UserIntegration) (now : Int) : Bool :=
  match i.refresh_locked_at with
  | none => false
  | some lock_time => decide (now - lock_time < REFRESH_LOCK_TIMEOUT_SECONDS)

/-- `_is_rate_limited`: an attempt recorded less than 60s ago. -/
def is_rate_limited (i : UserIntegration) (now : Int) : Bool :=
  match i.last_refresh_attempt with
  | none => false
  | some last_attempt => decide (now - last_attempt < RATE_LIMIT_SECONDS)

/-- The two timestamp writes `_acquire_refresh_lock` performs on the row. -/
def stampLock (now : Int) (j : UserIntegration) : UserIntegration :=
  { j with refresh_locked_at := some now, last_refresh_attempt := some now }

/-- The single write `_release_refresh_lock` performs on the row. -/
def clearLock (j : UserIntegration) : UserIntegration :=
  { j with refresh_locked_at := none }

/-- `_acquire_refresh_lock`: fail when locked; else stamp
`refresh_locked_at = now`, `last_refresh_attempt = now` and persist. -/
def acquire_refresh_lock (db : List UserIntegration) (now : Int)
    (i : UserIntegration) : Bool × List UserIntegration :=
  if is_refresh_locked i now then (false, db)
  else (true, updateIntegration db i.user_id i.service_name (stampLock now))

/-- `_release_refresh_lock`: null out `refresh_locked_at` and persist. -/
def release_refresh_lock (db : List UserIntegration) (i : UserIntegration) :
    List UserIntegration :=
  updateIntegration db i.user_id i.service_name clearLock

/-- Behaviour of the one outbound provider call
(`refresh_access_token` → `_post_token_request`) as seen by the coordinator:
a 200 JSON body, an `OAuthTokenError` raise, or any other exception
(network error, `json.JSONDecodeError`, `ValueError` for an unknown
service, ...). -/
inductive ProviderResult where
  | ok (resp : TokenJson)
  | tokenError
  | exn
deriving DecidableEq, Repr

/-- Result of `refresh_integration_token` plus the database it leaves behind;
`provider_called` records whether the outbound provider call was reached. -/
structure RefreshOutcome where
  success : Bool
  db : List UserIntegration
  provider_called : Bool
deriving DecidableEq, Repr

/-- The `except OAuthTokenError` / `except Exception` handlers of
`refresh_integration_token`: re-fetch the integration and, when present,
release the lock; return False. -/
def releaseAndFail (db : List UserIntegration) (user_id : Nat)
    (service_name : String) (called : Bool) : RefreshOutcome :=
  match get_user_integration db user_id service_name with
  | some i => { success := false, db := release_refresh_lock db i,
                provider_called := called }
  | none => { success := false, db := db, provider_called := called }

/-- `refresh_integration_token`.  The provider's behaviour is the
`provider` parameter.  Note the guard `if not refresh_token: return False`
sits inside the `try` block and returns without touching the lock; only the
two `except` handlers and the success path release it. -/
def refresh_integration_token (db : List UserIntegration) (now : Int)
    (user_id : Nat) (service_name : String) (provider : ProviderResult) :
    RefreshOutcome :=
  match get_user_integration db user_id service_name with
  | none => { success := false, db := db, provider_called := false }
  | some integration =>
    if is_rate_limited integration now then
      { success := false, db := db, provider_called := false }
    else if is_refresh_locked integration now then
      -- `_acquire_refresh_lock` returns False
      { success := false, db := db, provider_called := false }
    else
      -- lock acquired; `session.refresh` leaves the caller's object stamped
      let db1 := updateIntegration db integration.user_id
        integration.service_name (stampLock now)
      let integration1 := stampLock now integration
      match get_decrypted_tokens integration1 with
      | none =>
          -- InvalidToken raised inside try: caught by `except Exception`
          releaseAndFail db1 user_id service_name false
      | some tokens =>
        match tokens.refresh_token with
        | none =>
            -- `if not refresh_token`: early return, lock left in place
            { success := false, db := db1, provider_called := false }
        | some refresh_token =>
          if refresh_token == "" then
            -- empty string is falsy in Python: same early return
            { success := false, db := db1, provider_called := false }
          else
            match provider with
            | ProviderResult.tokenError => releaseAndFail db1 user_id service_name true
            | ProviderResult.exn => releaseAndFail db1 user_id service_name true
            | ProviderResult.ok resp =>
              match refresh_access_token_result refresh_token resp with
              | none =>
                  -- KeyError on the missing access_token: `except Exception`
                  releaseAndFail db1 user_id service_name true
              | some new_tokens =>
                let db2 := create_or_update_integration db1 now user_id service_name
                  new_tokens.access_token new_tokens.refresh_token
                  new_tokens.expires_in new_tokens.scope "Bearer"
                  integration1.provider_client_id
                match get_user_integration db2 user_id service_name with
                | none =>
                    -- unreachable: `_release_refresh_lock(session, None)` would
                    -- raise inside try and fall into `except Exception`
                    releaseAndFail db2 user_id service_name true
                | some i3 =>
                    { success := true, db := release_refresh_lock db2 i3,
                      provider_called := true }

/-- Result of `get_valid_token` plus the database left behind.
`result = none` models an exception escaping the function;
`result = some r` is a normal return of `r`. -/
structure ValidTokenOutcome where
  result : Option (Option String)
  db : List UserIntegration
  refresh_attempted : Bool
  provider_called : Bool
deriving DecidableEq, Repr

/-- `get_valid_token`.  There is no exception handling around
`get_decrypted_tokens` in the source, so a decryption failure escapes. -/
def get_valid_token (db : List UserIntegration) (now : Int) (user_id : Nat)
    (service_name : String) (provider : ProviderResult) : ValidTokenOutcome :=
  match get_user_integration db user_id service_name with
  | none => { result := some none, db := db, refresh_attempted := false,
              provider_called := false }
  | some integration =>
    let threshold_minutes := get_refresh_threshold_minutes service_name
    if integration.is_expired now ||
       integration.is_expiring_soon threshold_minutes now then
      let r := refresh_integration_token db now user_id service_name provider
      if !r.success && integration.is_expired now then
        { result := some none, db := r.db, refresh_attempted := true,
          provider_called := r.provider_called }
      else
        match get_user_integration r.db user_id service_name with
        | none =>
            -- `get_decrypted_tokens(None)` would raise AttributeError
            { result := none, db := r.db, refresh_attempted := true,
              provider_called := r.provider_called }
        | some integration2 =>
          match get_decrypted_tokens integration2 with
          | none =>
              { result := none, db := r.db, refresh_attempted := true,
                provider_called := r.provider_called }
          | some tokens =>
              { result := some (some tokens.access_token), db := r.db,
                refresh_attempted := true, provider_called := r.provider_called }
    else
      match get_decrypted_tokens integration with
      | none =>
          { result := none, db := db, refresh_attempted := false,
            provider_called := false }
      | some tokens =>
          { result := some (some tokens.access_token), db := db,
            refresh_attempted := false, provider_called := false }

/-! ## OAuth state store (backend/app/models/oauth_state.py,
backend/app/crud/oauth_state.py) -/

def STATE_EXPIRATION_MINUTES : Int := 10

structure OAuthState where
  state : String
  user_id : Nat
  service_name : String
  code_verifier : Option String
  redirect_uri : String
  provider_client_id : Option String
  created_at : Int
deriving DecidableEq, Repr

/-- `OAuthState.is_expired`: age strictly above the 10-minute window. -/
def OAuthState.is_expired (s : OAuthState) (now : Int) : Bool :=
  decide (now - s.created_at > STATE_EXPIRATION_MINUTES * 60)

/-- `session.delete` of the row with this primary key. -/
def deleteState (db : List OAuthState) (state : String) : List OAuthState :=
  db.filter (fun s => !(s.state == state))

/-- `consume_oauth_state_db`: destructive read with expiration check and
optional user validation; a user mismatch returns `None` without deleting. -/
def consume_oauth_state_db (db : List OAuthState) (now : Int) (state : String)
    (user_id : Option Nat) : Option OAuthState × List OAuthState :=
  match db.find? (fun s => s.state == state) with
  | none => (none, db)
  | some oauth_state =>
    if oauth_state.is_expired now then
      (none, deleteState db state)
    else
      match user_id with
      | some uid =>
          if oauth_state.user_id != uid then (none, db)
          else (some oauth_state, deleteState db state)
      | none => (some oauth_state, deleteState db state)

/-! ## Public listing (backend/app/api/routes/v1/integrations.py) -/

/-- `_to_public`: project an integration row onto the public schema. -/
def to_public (i : UserIntegration) (now : Int) : UserIntegrationPublic :=
  { id := i.id.getD 0
    service_name := i.service_name
    expires_at := i.expires_at
    scopes := i.scopes
    is_connected := true
    is_expired := i.is_expired now
    created_at := i.created_at
    updated_at := i.updated_at }

/-- Body of the `list_integrations` route: every row of the user, projected
through `_to_public`. -/
def list_integrations (db : List UserIntegration) (user_id : Nat) (now : Int) :
    List UserIntegrationPublic :=
  (get_user_integrations db user_id).map (fun i => to_public i now)

/-- Two integration rows that agree on every column except the two encrypted
token blobs (`access_token_encrypted`, `refresh_token_encrypted`). -/
def tokensOnlyDiff (i j : UserIntegration) : Prop :=
  i.id = j.id ∧ i.user_id = j.user_id ∧ i.service_name = j.service_name ∧
  i.expires_at = j.expires_at ∧ i.scopes = j.scopes ∧
  i.token_type = j.token_type ∧ i.provider_client_id = j.provider_client_id ∧
  i.created_at = j.created_at ∧ i.updated_at = j.updated_at ∧
  i.refresh_locked_at = j.refresh_locked_at ∧
  i.last_refresh_attempt = j.last_refresh_attempt

instance (i j : UserIntegration) : Decidable (tokensOnlyDiff i j) := by
  unfold tokensOnlyDiff
  infer_instance

/-! ## Concrete fixtures used in witnesses and counterexamples -/

/-- Fixture: a stored Google Drive integration of user 1 whose access token
expired at time 0. -/
def fixtureIntegration : UserIntegration :=
  { id := some 1, user_id := 1, service_name := "google_drive",
    access_token_encrypted := encrypt "access-0",
    refresh_token_encrypted := some (encrypt "refresh-0"),
    expires_at := some 0, scopes := some "scope.read", token_type := "Bearer",
    provider_client_id := some "client-0", created_at := 0, updated_at := 0,
    refresh_locked_at := none, last_refresh_attempt := none }

/-- Fixture: same integration but with no stored refresh token. -/
def fixtureNoRefreshToken : UserIntegration :=
  { fixtureIntegration with refresh_token_encrypted := none }

/-- Fixture: same integration but with an access-token ciphertext that does
not decrypt under the live key, and no expiry. -/
def fixtureUndecryptable : UserIntegration :=
  { fixtureIntegration with
    access_token_encrypted := EncBytes.undecryptable 0, expires_at := none }

/-- Fixture: a provider 200 response carrying a fresh access token but no
`refresh_token` field. -/
def fixtureRespNoRefresh : TokenJson :=
  { access_token := some "access-new", refresh_token := none,
    expires_in := some 3600, token_type := none, scope := none,
    error := none, error_description := none }

/-! ## Helper lemmas -/

/-- Reading back through the same (user_id, service_name) key after a keyed
update applies the update to the row that was found. -/
theorem get_user_integration_update (db : List UserIntegration) (uid : Nat)
    (svc : String) (f : UserIntegration → UserIntegration)
    (hf : ∀ i, key_matches uid svc (f i) = key_matches uid svc i) :
    get_user_integration (updateIntegration db uid svc f) uid svc =
      (get_user_integration db uid svc).map f := by
  induction db with
  | nil => rfl
  | cons a t ih =>
    unfold get_user_integration updateIntegration at *
    simp only [List.map_cons]
    cases hb : key_matches uid svc a with
    | true =>
        rw [if_pos rfl]
        rw [List.find?_cons_of_pos _ ((hf a).trans hb),
            List.find?_cons_of_pos _ hb]
        rfl
    | false =>
        rw [if_neg (by simp)]
        rw [List.find?_cons_of_neg _ (by simp [hb]),
            List.find?_cons_of_neg _ (by simp [hb])]
        exact ih

/-- A found integration matches the key it was looked up by. -/
theorem found_key_eq {db : List UserIntegration} {uid : Nat} {svc : String}
    {i : UserIntegration} (h : get_user_integration db uid svc = some i) :
    i.user_id = uid ∧ i.service_name = svc := by
  have hp := List.find?_some h
  simp only [key_matches, Bool.and_eq_true, beq_iff_eq] at hp
  exact hp

/-- `get_decrypted_tokens` does not read the lock columns. -/
theorem gdt_stampLock (now : Int) (i : UserIntegration) :
    get_decrypted_tokens (stampLock now i) = get_decrypted_tokens i := by
  cases i
  rfl

/-- `get_decrypted_tokens` does not read `refresh_locked_at`. -/
theorem gdt_clearLock (i : UserIntegration) :
    get_decrypted_tokens (clearLock i) = get_decrypted_tokens i := by
  cases i
  rfl

/-- Guard behaviour: a rate-limited integration makes
`refresh_integration_token` return false at once, leaving the database
untouched and never reaching the provider call. -/
theorem refresh_rate_limited (db : List UserIntegration) (now : Int)
    (uid : Nat) (svc : String) (pr : ProviderResult) (i : UserIntegration)
    (h : get_user_integration db uid svc = some i)
    (hrate : is_rate_limited i now = true) :
    refresh_integration_token db now uid svc pr
      = { success := false, db := db, provider_called := false } := by
  unfold refresh_integration_token
  rw [h]
  simp [hrate]

/-- Guard behaviour: a fresh lock makes `refresh_integration_token` return
false at once, leaving the database untouched and never reaching the provider
call. -/
theorem refresh_locked_skips (db : List UserIntegration) (now : Int)
    (uid : Nat) (svc : String) (pr : ProviderResult) (i : UserIntegration)
    (h : get_user_integration db uid svc = some i)
    (hrate : is_rate_limited i now = false)
    (hlock : is_refresh_locked i now = true) :
    refresh_integration_token db now uid svc pr
      = { success := false, db := db, provider_called := false } := by
  unfold refresh_integration_token
  rw [h]
  simp [hrate, hlock]

/-- Lookup after a keyed update on the keys of the found row. -/
theorem get_update_self (db : List UserIntegration) (uid : Nat) (svc : String)
    (i : UserIntegration) (f : UserIntegration → UserIntegration)
    (h : get_user_integration db uid svc = some i)
    (hf : ∀ j, key_matches uid svc (f j) = key_matches uid svc j) :
    get_user_integration (updateIntegration db i.user_id i.service_name f)
      uid svc = some (f i) := by
  obtain ⟨hu, hs⟩ := found_key_eq h
  rw [hu, hs, get_user_integration_update db uid svc f hf, h]
  rfl

/-- Lookup after a keyed update on the lookup keys themselves. -/
theorem get_update_at (db : List UserIntegration) (uid : Nat) (svc : String)
    (i : UserIntegration) (f : UserIntegration → UserIntegration)
    (h : get_user_integration db uid svc = some i)
    (hf : ∀ j, key_matches uid svc (f j) = key_matches uid svc j) :
    get_user_integration (updateIntegration db uid svc f) uid svc
      = some (f i) := by
  rw [get_user_integration_update db uid svc f hf, h]
  rfl

/-- Core path analysis: once both guards pass, every path of
`refresh_integration_token` leaves a row for the key with
`last_refresh_attempt = now`, and every failing path leaves the row's
decryptable content unchanged. -/
theorem refresh_after_guards (db : List UserIntegration) (now : Int)
    (uid : Nat) (svc : String) (pr : ProviderResult) (i : UserIntegration)
    (h : get_user_integration db uid svc = some i)
    (hrate : is_rate_limited i now = false)
    (hlock : is_refresh_locked i now = false) :
    ∃ i2,
      get_user_integration (refresh_integration_token db now uid svc pr).db
          uid svc = some i2 ∧
      i2.last_refresh_attempt = some now ∧
      ((refresh_integration_token db now uid svc pr).success = false →
        get_decrypted_tokens i2 = get_decrypted_tokens i) := by
  have hdb1 := get_update_self db uid svc i (stampLock now) h (fun j => rfl)
  have hdb2 := get_update_self _ uid svc (stampLock now i) clearLock hdb1
    (fun j => rfl)
  unfold refresh_integration_token
  rw [h]
  simp only [hrate, hlock, Bool.false_eq_true, if_false]
  rw [gdt_stampLock]
  rcases hg : get_decrypted_tokens i with _ | tokens
  · -- decryption failure: except-handler releases the lock
    simp only [releaseAndFail, hdb1, release_refresh_lock]
    exact ⟨_, hdb2, rfl, fun _ => by rw [gdt_clearLock, gdt_stampLock]; exact hg⟩
  · rcases hrt : tokens.refresh_token with _ | rt
    · -- missing refresh token: early return, db1 kept as is
      simp only [hrt]
      exact ⟨_, hdb1, rfl, fun _ => by rw [gdt_stampLock]; exact hg⟩
    · simp only [hrt]
      cases hre : rt == "" with
      | true =>
          rw [if_pos rfl]
          exact ⟨_, hdb1, rfl, fun _ => by rw [gdt_stampLock]; exact hg⟩
      | false =>
          rw [if_neg (fun hc => Bool.noConfusion hc)]
          cases pr with
          | tokenError =>
              simp only [releaseAndFail, hdb1, release_refresh_lock]
              exact ⟨_, hdb2, rfl,
                fun _ => by rw [gdt_clearLock, gdt_stampLock]; exact hg⟩
          | exn =>
              simp only [releaseAndFail, hdb1, release_refresh_lock]
              exact ⟨_, hdb2, rfl,
                fun _ => by rw [gdt_clearLock, gdt_stampLock]; exact hg⟩
          | ok resp =>
              rcases hnt : refresh_access_token_result rt resp with _ | nt
              · simp only [hnt, releaseAndFail, hdb1, release_refresh_lock]
                exact ⟨_, hdb2, rfl,
                  fun _ => by rw [gdt_clearLock, gdt_stampLock]; exact hg⟩
              · simp only [hnt, create_or_update_integration, hdb1]
                have hupd := get_update_at _ uid svc (stampLock now i)
                  (applyUpsert now nt.access_token nt.refresh_token
                    (Option.map (fun e => now + e) nt.expires_in) nt.scope
                    "Bearer" ((stampLock now i).provider_client_id)) hdb1
                  (fun j => rfl)
                simp only [hupd]
                have hrel := get_update_self _ uid svc
                  (applyUpsert now nt.access_token nt.refresh_token
                    (Option.map (fun e => now + e) nt.expires_in) nt.scope
                    "Bearer" ((stampLock now i).provider_client_id)
                    (stampLock now i)) clearLock hupd (fun j => rfl)
                simp only [release_refresh_lock]
                exact ⟨_, hrel, rfl, fun hc => Bool.noConfusion hc⟩


/-- Any failing `refresh_integration_token` call leaves a row for the key
whose decryptable content is unchanged. -/
theorem refresh_failed_preserves_tokens (db : List UserIntegration) (now : Int)
    (uid : Nat) (svc : String) (pr : ProviderResult) (i : UserIntegration)
    (h : get_user_integration db uid svc = some i)
    (hfail : (refresh_integration_token db now uid svc pr).success = false) :
    ∃ i2,
      get_user_integration (refresh_integration_token db now uid svc pr).db
          uid svc = some i2 ∧
      get_decrypted_tokens i2 = get_decrypted_tokens i := by
  cases hrate : is_rate_limited i now with
  | true =>
      rw [refresh_rate_limited db now uid svc pr i h hrate]
      exact ⟨i, h, rfl⟩
  | false =>
      cases hlock : is_refresh_locked i now with
      | true =>
          rw [refresh_locked_skips db now uid svc pr i h hrate hlock]
          exact ⟨i, h, rfl⟩
      | false =>
          obtain ⟨i2, h2, _, h3⟩ :=
            refresh_after_guards db now uid svc pr i h hrate hlock
          exact ⟨i2, h2, h3 hfail⟩

/-! ## Claim theorems -/

/-- C1: the claim says the refresh lock is released on every exit path of
`refresh_integration_token`, in particular on the missing-refresh-token path.
The code violates this: at a concrete integration with no stored refresh
token and no prior lock, the call returns false and leaves
`refresh_locked_at = 100` set (the early `return False` sits inside the `try`
block before any release and there is no `finally`). -/
theorem c1_missing_refresh_token_keeps_lock :
    (refresh_integration_token [fixtureNoRefreshToken] 100 1 "google_drive"
        ProviderResult.tokenError).success = false ∧
    (get_user_integration
        (refresh_integration_token [fixtureNoRefreshToken] 100 1 "google_drive"
          ProviderResult.tokenError).db 1 "google_drive").map
        UserIntegration.refresh_locked_at
      = some (some 100) := by
  constructor
  · rfl
  · rfl

/-- C2: the claim says a non-200 token-endpoint response with a non-JSON body
yields a generic structured error carrying status and body, and never an
unhandled JSON-parse exception.  The code violates this: `_post_token_request`
calls `response.json()` before checking the status, so a 500 response with an
HTML body raises `json.JSONDecodeError` (modelled as the `jsonDecodeError`
outcome) instead of an `OAuthTokenError`. -/
theorem c2_nonjson_error_body_raises_json_error :
    post_token_request 500
        (RespBody.nonJson "<html><body>Internal Server Error</body></html>")
      = PostTokenOutcome.jsonDecodeError
          "<html><body>Internal Server Error</body></html>" := rfl

/-- C4: the claim says `get_valid_token` returns null when the stored
ciphertext cannot be decrypted.  The code violates this: there is no handler
around `get_decrypted_tokens`, so at a concrete integration with an
undecryptable access-token blob the `InvalidToken` exception escapes
(`result = none` in the model) instead of a null return (`some none`). -/
theorem c4_decrypt_failure_escapes :
    (get_valid_token [fixtureUndecryptable] 100 1 "google_drive"
        ProviderResult.tokenError).result = none := rfl

/-- C3: when the token needs refresh and the refresh attempt fails,
`get_valid_token` returns null if the token is fully expired, and the still
readable current decrypted access token if it is merely expiring soon. -/
theorem c3_failed_refresh_degradation (db : List UserIntegration) (now : Int)
    (uid : Nat) (svc : String) (pr : ProviderResult) (i : UserIntegration)
    (toks : DecryptedTokens)
    (h : get_user_integration db uid svc = some i)
    (hd : get_decrypted_tokens i = some toks)
    (hneeds : (i.is_expired now ||
      i.is_expiring_soon (get_refresh_threshold_minutes svc) now) = true)
    (hfail : (refresh_integration_token db now uid svc pr).success = false) :
    (get_valid_token db now uid svc pr).result =
      if i.is_expired now then some none
      else some (some toks.access_token) := by
  unfold get_valid_token
  rw [h]
  simp only [hneeds, if_true, hfail, Bool.not_false, Bool.true_and]
  cases he : i.is_expired now with
  | true => rfl
  | false =>
      obtain ⟨i2, h2, hgdt⟩ :=
        refresh_failed_preserves_tokens db now uid svc pr i h hfail
      simp only [Bool.false_eq_true, if_false, h2, hgdt, hd]

/-- C3 witness: a concrete expired integration with a failing provider. -/
theorem c3_failed_refresh_degradation_witness :
    (get_valid_token [fixtureIntegration] 100 1 "google_drive"
        ProviderResult.tokenError).result =
      if fixtureIntegration.is_expired 100 then some none
      else some (some "access-0") :=
  c3_failed_refresh_degradation [fixtureIntegration] 100 1 "google_drive"
    ProviderResult.tokenError fixtureIntegration
    { access_token := "access-0", refresh_token := some "refresh-0",
      token_type := "Bearer", expires_at := some 0,
      scopes := some "scope.read" }
    (by decide) (by decide) (by decide) (by decide)

/-- C5: the refresh guards.  (1) with an attempt recorded less than 60s ago
the call returns false without touching the database or the provider;
(2) likewise when a lock is set less than 30s ago; (3) a lock 30s or older is
overridden: the call proceeds past the guards and stamps
`last_refresh_attempt = now`; (4) once the guards pass at `now`, any second
call less than 60s later returns false without touching the database or the
provider — so at most one attempt reaches the provider per 60-second window
and a held lock blocks all refreshes for its 30-second lifetime. -/
theorem c5_refresh_guards (db : List UserIntegration) (now : Int)
    (uid : Nat) (svc : String) (pr : ProviderResult) (i : UserIntegration)
    (h : get_user_integration db uid svc = some i) :
    (∀ ta, i.last_refresh_attempt = some ta → now - ta < 60 →
      refresh_integration_token db now uid svc pr
        = { success := false, db := db, provider_called := false }) ∧
    (is_rate_limited i now = false →
      ∀ tl, i.refresh_locked_at = some tl → now - tl < 30 →
        refresh_integration_token db now uid svc pr
          = { success := false, db := db, provider_called := false }) ∧
    (is_rate_limited i now = false →
      ∀ tl, i.refresh_locked_at = some tl → 30 ≤ now - tl →
        ∃ i2, get_user_integration
            (refresh_integration_token db now uid svc pr).db uid svc
            = some i2 ∧
          i2.last_refresh_attempt = some now) ∧
    (is_rate_limited i now = false → is_refresh_locked i now = false →
      ∀ now2 pr2, now2 - now < 60 →
        refresh_integration_token
            (refresh_integration_token db now uid svc pr).db now2 uid svc pr2
          = { success := false,
              db := (refresh_integration_token db now uid svc pr).db,
              provider_called := false }) := by
  refine ⟨?_, ?_, ?_, ?_⟩
  · intro ta hta hlt
    apply refresh_rate_limited db now uid svc pr i h
    unfold is_rate_limited
    rw [hta]
    exact decide_eq_true hlt
  · intro hrate tl htl hlt
    apply refresh_locked_skips db now uid svc pr i h hrate
    unfold is_refresh_locked
    rw [htl]
    exact decide_eq_true hlt
  · intro hrate tl htl hge
    have hlock : is_refresh_locked i now = false := by
      unfold is_refresh_locked
      rw [htl]
      exact decide_eq_false (not_lt.mpr hge)
    obtain ⟨i2, h2, hlast, _⟩ :=
      refresh_after_guards db now uid svc pr i h hrate hlock
    exact ⟨i2, h2, hlast⟩
  · intro hrate hlock now2 pr2 hlt
    obtain ⟨i2, h2, hlast, _⟩ :=
      refresh_after_guards db now uid svc pr i h hrate hlock
    apply refresh_rate_limited _ now2 uid svc pr2 i2 h2
    unfold is_rate_limited
    rw [hlast]
    exact decide_eq_true hlt

/-- C5 witness: a concrete refresh attempt at time 100 followed by a second
call at time 130, which is skipped by the rate limit. -/
theorem c5_refresh_guards_witness :
    refresh_integration_token
        (refresh_integration_token [fixtureIntegration] 100 1 "google_drive"
          ProviderResult.tokenError).db 130 1 "google_drive"
        ProviderResult.tokenError
      = { success := false,
          db := (refresh_integration_token [fixtureIntegration] 100 1
              "google_drive" ProviderResult.tokenError).db,
          provider_called := false } :=
  (c5_refresh_guards [fixtureIntegration] 100 1 "google_drive"
      ProviderResult.tokenError fixtureIntegration (by decide)).2.2.2
    (by decide) (by decide) 130 ProviderResult.tokenError (by decide)

/-- C6: a successful refresh whose provider response JSON lacks a
`refresh_token` field stores the prior refresh token back into the updated
row: `refresh_access_token` falls back to the supplied token and the upsert
re-encrypts it, so it is never discarded or nulled. -/
theorem c6_refresh_token_preserved (db : List UserIntegration) (now : Int)
    (uid : Nat) (svc : String) (i : UserIntegration) (toks : DecryptedTokens)
    (rt : String) (resp : TokenJson) (newat : String)
    (h : get_user_integration db uid svc = some i)
    (hrate : is_rate_limited i now = false)
    (hlock : is_refresh_locked i now = false)
    (hd : get_decrypted_tokens i = some toks)
    (hrt : toks.refresh_token = some rt)
    (hne : (rt == "") = false)
    (hacc : resp.access_token = some newat)
    (hnort : resp.refresh_token = none) :
    (refresh_integration_token db now uid svc
        (ProviderResult.ok resp)).success = true ∧
    ∃ i2, get_user_integration
        (refresh_integration_token db now uid svc (ProviderResult.ok resp)).db
        uid svc = some i2 ∧
      i2.refresh_token_encrypted = some (encrypt rt) := by
  have hdb1 := get_update_self db uid svc i (stampLock now) h (fun j => rfl)
  unfold refresh_integration_token
  rw [h]
  simp only [hrate, hlock, Bool.false_eq_true, if_false]
  rw [gdt_stampLock, hd]
  simp only [hrt]
  rw [if_neg (by rw [hne]; exact fun hc => Bool.noConfusion hc)]
  simp only [refresh_access_token_result, hacc, hnort, Option.getD_none]
  simp only [create_or_update_integration, hdb1]
  have hupd := get_update_at _ uid svc (stampLock now i)
    (applyUpsert now newat (some rt)
      (Option.map (fun e => now + e) resp.expires_in) resp.scope
      "Bearer" ((stampLock now i).provider_client_id)) hdb1
    (fun j => rfl)
  simp only [hupd]
  have hrel := get_update_self _ uid svc
    (applyUpsert now newat (some rt)
      (Option.map (fun e => now + e) resp.expires_in) resp.scope
      "Bearer" ((stampLock now i).provider_client_id)
      (stampLock now i)) clearLock hupd (fun j => rfl)
  simp only [release_refresh_lock]
  exact ⟨trivial, _, hrel, rfl⟩

/-- C6 witness: a concrete refresh of the fixture integration against a 200
response with no `refresh_token` field keeps the original token. -/
theorem c6_refresh_token_preserved_witness :
    (refresh_integration_token [fixtureIntegration] 100 1 "google_drive"
        (ProviderResult.ok fixtureRespNoRefresh)).success = true ∧
    ∃ i2, get_user_integration
        (refresh_integration_token [fixtureIntegration] 100 1 "google_drive"
          (ProviderResult.ok fixtureRespNoRefresh)).db 1 "google_drive"
        = some i2 ∧
      i2.refresh_token_encrypted = some (encrypt "refresh-0") :=
  c6_refresh_token_preserved [fixtureIntegration] 100 1 "google_drive"
    fixtureIntegration
    { access_token := "access-0", refresh_token := some "refresh-0",
      token_type := "Bearer", expires_at := some 0,
      scopes := some "scope.read" }
    "refresh-0" fixtureRespNoRefresh "access-new"
    (by decide) (by decide) (by decide) (by decide) (by decide) (by decide)
    (by decide) (by decide)

/-- After `session.delete` of the row keyed by `state`, no row with that key
remains. -/
theorem find?_deleteState (db : List OAuthState) (state : String) :
    (deleteState db state).find? (fun s => s.state == state) = none := by
  unfold deleteState
  rw [List.find?_eq_none]
  intro x hx
  have hm := List.mem_filter.mp hx
  simp only [Bool.not_eq_eq_eq_not, Bool.not_true] at hm
  simp [hm.2]

/-- C7: consuming a stored, non-expired OAuth state with a mismatching
`user_id` returns null and leaves the store unchanged; a subsequent consume
with the stored `user_id` returns the data and deletes the record. -/
theorem c7_wrong_user_consume_preserves (db : List OAuthState) (now : Int)
    (st : OAuthState) (probe : Nat)
    (h : db.find? (fun s => s.state == st.state) = some st)
    (hexp : st.is_expired now = false)
    (hmis : probe ≠ st.user_id) :
    consume_oauth_state_db db now st.state (some probe) = (none, db) ∧
    (consume_oauth_state_db db now st.state (some st.user_id)).1 = some st ∧
    ((consume_oauth_state_db db now st.state (some st.user_id)).2).find?
        (fun s => s.state == st.state) = none := by
  unfold consume_oauth_state_db
  rw [h]
  simp only [hexp, Bool.false_eq_true, if_false]
  refine ⟨?_, ?_, ?_⟩
  · rw [if_pos]
    simp only [bne_iff_ne, ne_eq]
    exact fun hc => hmis hc.symm
  · rw [if_neg]
    simp only [bne_self_eq_false, Bool.false_eq_true, not_false_eq_true]
  · rw [if_neg]
    · exact find?_deleteState db st.state
    · simp only [bne_self_eq_false, Bool.false_eq_true, not_false_eq_true]

/-- C7 witness: a concrete stored state probed by the wrong user and then
consumed by the right one. -/
theorem c7_wrong_user_consume_preserves_witness :
    consume_oauth_state_db
        [{ state := "state-0", user_id := 1, service_name := "google_drive",
           code_verifier := none, redirect_uri := "http://cb",
           provider_client_id := none, created_at := 0 }] 60 "state-0" (some 2)
      = (none,
         [{ state := "state-0", user_id := 1, service_name := "google_drive",
            code_verifier := none, redirect_uri := "http://cb",
            provider_client_id := none, created_at := 0 }]) ∧
    (consume_oauth_state_db
        [{ state := "state-0", user_id := 1, service_name := "google_drive",
           code_verifier := none, redirect_uri := "http://cb",
           provider_client_id := none, created_at := 0 }] 60 "state-0"
        (some 1)).1
      = some { state := "state-0", user_id := 1,
               service_name := "google_drive", code_verifier := none,
               redirect_uri := "http://cb", provider_client_id := none,
               created_at := 0 } ∧
    ((consume_oauth_state_db
        [{ state := "state-0", user_id := 1, service_name := "google_drive",
           code_verifier := none, redirect_uri := "http://cb",
           provider_client_id := none, created_at := 0 }] 60 "state-0"
        (some 1)).2).find? (fun s => s.state == "state-0") = none :=
  c7_wrong_user_consume_preserves
    [{ state := "state-0", user_id := 1, service_name := "google_drive",
       code_verifier := none, redirect_uri := "http://cb",
       provider_client_id := none, created_at := 0 }] 60
    { state := "state-0", user_id := 1, service_name := "google_drive",
      code_verifier := none, redirect_uri := "http://cb",
      provider_client_id := none, created_at := 0 } 2
    (by decide) (by decide) (by decide)

/-- `_to_public` reads none of the encrypted token fields. -/
theorem to_public_tokensOnlyDiff (i j : UserIntegration) (now : Int)
    (hd : tokensOnlyDiff i j) : to_public i now = to_public j now := by
  obtain ⟨h1, h2, h3, h4, h5, h6, h7, h8, h9, h10, h11⟩ := hd
  unfold to_public UserIntegration.is_expired
  rw [h1, h3, h4, h5, h8, h9]

/-- C9: two-run noninterference of the public listing — two stores whose rows
differ only in their encrypted access/refresh token fields produce identical
`list_integrations` output, so the public records carry no information about
token values (the output schema holds only service name, expiry, scopes,
connected/expired flags and timestamps). -/
theorem c9_list_integrations_noninterference (db1 db2 : List UserIntegration)
    (uid : Nat) (now : Int) (h : List.Forall₂ tokensOnlyDiff db1 db2) :
    list_integrations db1 uid now = list_integrations db2 uid now := by
  unfold list_integrations get_user_integrations
  induction h with
  | nil => rfl
  | @cons a b l1 l2 hab htail ih =>
      simp only [List.filter_cons]
      rw [hab.2.1]
      cases hc : b.user_id == uid with
      | true =>
          simp only [if_true, List.map_cons, ih,
            to_public_tokensOnlyDiff a b now hab]
      | false =>
          simp only [Bool.false_eq_true, if_false]
          exact ih

/-- C9 witness: two concrete single-row stores differing only in the stored
ciphertexts map to the same public listing. -/
theorem c9_list_integrations_noninterference_witness :
    list_integrations [fixtureIntegration] 1 100
      = list_integrations
          [{ fixtureIntegration with
             access_token_encrypted := EncBytes.undecryptable 7,
             refresh_token_encrypted := some (EncBytes.undecryptable 8) }]
          1 100 :=
  c9_list_integrations_noninterference [fixtureIntegration]
    [{ fixtureIntegration with
       access_token_encrypted := EncBytes.undecryptable 7,
       refresh_token_encrypted := some (EncBytes.undecryptable 8) }] 1 100
    (List.Forall₂.cons (by decide) List.Forall₂.nil)

/-- C10: an integration with no expiry (`expires_at` null) is never expired
and never expiring soon for any threshold, so `get_valid_token` performs no
refresh, contacts no provider, leaves the store unchanged, and returns the
decrypted stored access token. -/
theorem c10_no_expiry_no_refresh (db : List UserIntegration) (now : Int)
    (uid : Nat) (svc : String) (pr : ProviderResult) (i : UserIntegration)
    (toks : DecryptedTokens)
    (h : get_user_integration db uid svc = some i)
    (he : i.expires_at = none)
    (hd : get_decrypted_tokens i = some toks) :
    i.is_expired now = false ∧
    (∀ minutes : Int, i.is_expiring_soon minutes now = false) ∧
    get_valid_token db now uid svc pr
      = { result := some (some toks.access_token), db := db,
          refresh_attempted := false, provider_called := false } := by
  have hexp : i.is_expired now = false := by
    unfold UserIntegration.is_expired
    rw [he]
  have hsoon : ∀ m : Int, i.is_expiring_soon m now = false := fun m => by
    unfold UserIntegration.is_expiring_soon
    rw [he]
  refine ⟨hexp, hsoon, ?_⟩
  unfold get_valid_token
  rw [h]
  simp only [hexp, hsoon, Bool.or_self, Bool.false_eq_true, if_false, hd]

/-- C10 witness: a concrete never-expiring integration. -/
theorem c10_no_expiry_no_refresh_witness :
    ({ fixtureIntegration with expires_at := none } :
        UserIntegration).is_expired 100 = false ∧
    (∀ minutes : Int,
      ({ fixtureIntegration with expires_at := none } :
          UserIntegration).is_expiring_soon minutes 100 = false) ∧
    get_valid_token [{ fixtureIntegration with expires_at := none }] 100 1
        "google_drive" ProviderResult.tokenError
      = { result := some (some "access-0"),
          db := [{ fixtureIntegration with expires_at := none }],
          refresh_attempted := false, provider_called := false } :=
  c10_no_expiry_no_refresh [{ fixtureIntegration with expires_at := none }]
    100 1 "google_drive" ProviderResult.tokenError
    { fixtureIntegration with expires_at := none }
    { access_token := "access-0", refresh_token := some "refresh-0",
      token_type := "Bearer", expires_at := none,
      scopes := some "scope.read" }
    (by decide) (by decide) (by decide)

/-- Inserting a matching row into a store with no matching row makes the
lookup find exactly it. -/
theorem get_insert (db : List UserIntegration) (row : UserIntegration)
    (uid : Nat) (svc : String)
    (h0 : get_user_integration db uid svc = none)
    (hk : key_matches uid svc row = true) :
    get_user_integration (db ++ [row]) uid svc = some row := by
  unfold get_user_integration at *
  rw [List.find?_append, h0]
  simp [List.find?, hk]

/-- Keyed updates do not change the number of matching rows. -/
theorem countP_updateIntegration (db : List UserIntegration) (uid : Nat)
    (svc : String) (f : UserIntegration → UserIntegration)
    (hf : ∀ j, key_matches uid svc (f j) = key_matches uid svc j) :
    (updateIntegration db uid svc f).countP (key_matches uid svc)
      = db.countP (key_matches uid svc) := by
  unfold updateIntegration
  rw [List.countP_map]
  have hfun : (key_matches uid svc ∘ fun i =>
      if key_matches uid svc i then f i else i) = key_matches uid svc := by
    funext j
    cases hj : key_matches uid svc j with
    | true => simp [Function.comp, hj, hf j]
    | false => simp [Function.comp, hj]
  rw [hfun]

/-- C8 counter-evidence: the claim says an update overwrites only the fields
explicitly provided and preserves the others.  At a concrete pair of upserts
where the second call omits `scopes` (passes `None`), the stored
`scopes = "scope.read"` from the first call is overwritten with null rather
than preserved. -/
theorem c8_upsert_overwrites_omitted_scopes :
    (get_user_integration
        (create_or_update_integration
          (create_or_update_integration [] 0 1 "google_drive" "access-1"
            (some "refresh-1") (some 3600) (some "scope.read") "Bearer"
            (some "client-1"))
          10 1 "google_drive" "access-2" none none none "Bearer" none)
        1 "google_drive").map UserIntegration.scopes
      = some none ∧
    (some (some "scope.read") : Option (Option String)) ≠ some none := by
  constructor
  · rfl
  · decide

/-- C8 (amended): upserting twice for the same (user, service) leaves exactly
one matching row; when the second call passes `None` for the refresh token and
`provider_client_id` those two fields keep the first call's values, while the
access token, `expires_at`, `scopes` and `updated_at` are overwritten with the
second call's values (including `None`s). -/
theorem c8_upsert_twice_single_row (db : List UserIntegration) (t1 t2 : Int)
    (uid : Nat) (svc : String) (at1 at2 rt1 pc1 : String)
    (e1 e2 : Option Int) (s1 s2 : Option String)
    (h0 : get_user_integration db uid svc = none)
    (hrt : (rt1 == "") = false) :
    (create_or_update_integration
        (create_or_update_integration db t1 uid svc at1 (some rt1) e1 s1
          "Bearer" (some pc1))
        t2 uid svc at2 none e2 s2 "Bearer" none).countP
        (key_matches uid svc) = 1 ∧
    ∃ i2, get_user_integration
        (create_or_update_integration
          (create_or_update_integration db t1 uid svc at1 (some rt1) e1 s1
            "Bearer" (some pc1))
          t2 uid svc at2 none e2 s2 "Bearer" none) uid svc = some i2 ∧
      i2.access_token_encrypted = encrypt at2 ∧
      i2.refresh_token_encrypted = some (encrypt rt1) ∧
      i2.provider_client_id = some pc1 ∧
      i2.expires_at = e2.map (fun e => t2 + e) ∧
      i2.scopes = s2 ∧
      i2.updated_at = t2 := by
  have h1 : get_user_integration
      (db ++ [{ id := none, user_id := uid, service_name := svc,
                access_token_encrypted := encrypt at1,
                refresh_token_encrypted := some (encrypt rt1),
                expires_at := e1.map (fun e => t1 + e), scopes := s1,
                token_type := "Bearer", provider_client_id := some pc1,
                created_at := t1, updated_at := t1,
                refresh_locked_at := none, last_refresh_attempt := none }])
      uid svc
    = some { id := none, user_id := uid, service_name := svc,
             access_token_encrypted := encrypt at1,
             refresh_token_encrypted := some (encrypt rt1),
             expires_at := e1.map (fun e => t1 + e), scopes := s1,
             token_type := "Bearer", provider_client_id := some pc1,
             created_at := t1, updated_at := t1,
             refresh_locked_at := none, last_refresh_attempt := none } :=
    get_insert db _ uid svc h0 (by simp [key_matches])
  simp only [create_or_update_integration, h0, hrt, Bool.false_eq_true,
    if_false, h1]
  constructor
  · rw [countP_updateIntegration _ uid svc
      (applyUpsert t2 at2 none (Option.map (fun e => t2 + e) e2) s2 "Bearer"
        none) (fun j => rfl), List.countP_append]
    rw [List.countP_eq_zero.mpr (List.find?_eq_none.mp h0)]
    simp [List.countP_cons, key_matches]
  · have h2 := get_update_at _ uid svc _
      (applyUpsert t2 at2 none (Option.map (fun e => t2 + e) e2) s2 "Bearer"
        none) h1 (fun j => rfl)
    exact ⟨_, h2, rfl, rfl, rfl, rfl, rfl, rfl⟩

/-- C8 witness: a concrete double upsert. -/
theorem c8_upsert_twice_single_row_witness :
    (create_or_update_integration
        (create_or_update_integration [] 0 1 "google_drive" "access-1"
          (some "refresh-1") (some 3600) (some "scope.read") "Bearer"
          (some "client-1"))
        10 1 "google_drive" "access-2" none none none "Bearer" none).countP
        (key_matches 1 "google_drive") = 1 ∧
    ∃ i2, get_user_integration
        (create_or_update_integration
          (create_or_update_integration [] 0 1 "google_drive" "access-1"
            (some "refresh-1") (some 3600) (some "scope.read") "Bearer"
            (some "client-1"))
          10 1 "google_drive" "access-2" none none none "Bearer" none)
        1 "google_drive" = some i2 ∧
      i2.access_token_encrypted = encrypt "access-2" ∧
      i2.refresh_token_encrypted = some (encrypt "refresh-1") ∧
      i2.provider_client_id = some "client-1" ∧
      i2.expires_at = (none : Option Int).map (fun e => 10 + e) ∧
      i2.scopes = none ∧
      i2.updated_at = 10 :=
  c8_upsert_twice_single_row [] 0 10 1 "google_drive" "access-1" "access-2"
    "refresh-1" "client-1" (some 3600) none (some "scope.read") none
    (by decide) (by decide)
